import Mathlib

/-!
Verification of the bakery quotation core: a shallow embedding of
`src/calculator.py`, `src/converter.py`, `src/models.py`,
`src/tools/bom_tool.py`, `src/tools/database_tool.py` and the tool
implementations in `src/agent/orchestrator.py`, with theorems settling the
spec claims about them.

Numeric model: for the pricing pipeline, Python floats are modelled as
exact rationals (decimal literals in the source become the exact rational
they denote), and Python's `round(x, 2)` is modelled as round-half-to-even
at two decimals (`pyRound2`); every designated concrete computation there
stays far from both rounding ties and double-precision error, so the
rational model and CPython agree on all cited values.  The unit converter,
whose round-trip property is sensitive to double rounding, is instead
modelled with explicit IEEE-754 binary64 arithmetic: `fl` rounds a
rational to the nearest double and every multiplication rounds its
result, and the cited doubles were checked against CPython bit for bit.
-/

namespace Bakery

/-- Floor of a rational as an integer (used by the rounding model). -/
def ratFloor (q : ℚ) : ℤ := ⌊q⌋

/-- Round-half-to-even of a rational to the nearest integer, the rounding
CPython's builtin `round` applies (on the exact value; ties go to the even
integer). -/
def roundHalfEven (q : ℚ) : ℤ :=
  let f : ℤ := ratFloor q
  let r : ℚ := q - (f : ℚ)
  if r < 1/2 then f
  else if 1/2 < r then f + 1
  else if f % 2 = 0 then f else f + 1

/-- Python's `round(x, 2)` in the rational model. -/
def pyRound2 (x : ℚ) : ℚ := ((roundHalfEven (x * 100) : ℤ) : ℚ) / 100

/-! ## calculator.py -/

/-- `MaterialLine` dataclass from `src/calculator.py`. -/
structure MaterialLine where
  name : String
  qty : ℚ
  unit : String
  unit_cost : ℚ
  line_cost : ℚ
deriving DecidableEq

/-- `QuoteCalculation` dataclass from `src/calculator.py`. -/
structure QuoteCalculation where
  lines : List MaterialLine
  materials_subtotal : ℚ
  labor_hours : ℚ
  labor_rate : ℚ
  labor_cost : ℚ
  subtotal : ℚ
  markup_pct : ℚ
  markup_value : ℚ
  price_before_vat : ℚ
  vat_pct : ℚ
  vat_value : ℚ
  total : ℚ
deriving DecidableEq

/-- The rate fields a constructed `PricingCalculator` carries. -/
structure PricingCalculator where
  labor_rate : ℚ
  markup_pct : ℚ
  vat_pct : ℚ
deriving DecidableEq

/-- `PricingCalculator.__init__` validation: `ValueError` on a negative
labor rate, a negative markup, or a VAT fraction outside `[0, 1]`. -/
def makePricingCalculator (labor_rate markup_pct vat_pct : ℚ) :
    Except String PricingCalculator :=
  if labor_rate < 0 then .error "Labor rate must be non-negative"
  else if markup_pct < 0 then .error "Markup percentage must be non-negative"
  else if vat_pct < 0 ∨ vat_pct > 1 then
    .error "VAT percentage must be between 0 and 1"
  else .ok ⟨labor_rate, markup_pct, vat_pct⟩

/-- `PricingCalculator.calculate_quote` from `src/calculator.py`: the
cascade is computed at full precision and each stored monetary field is
rounded to two decimals only when the result record is built; the rounded
values are not fed back into later steps. -/
def calculate_quote (c : PricingCalculator) (materials : List MaterialLine)
    (labor_hours : ℚ) : QuoteCalculation :=
  let materials_subtotal : ℚ := (materials.map (fun l => l.line_cost)).sum
  let labor_cost : ℚ := labor_hours * c.labor_rate
  let subtotal : ℚ := materials_subtotal + labor_cost
  let markup_value : ℚ := subtotal * c.markup_pct
  let price_before_vat : ℚ := subtotal + markup_value
  let vat_value : ℚ := price_before_vat * c.vat_pct
  let total : ℚ := price_before_vat + vat_value
  { lines := materials
    materials_subtotal := pyRound2 materials_subtotal
    labor_hours := labor_hours
    labor_rate := c.labor_rate
    labor_cost := pyRound2 labor_cost
    subtotal := pyRound2 subtotal
    markup_pct := c.markup_pct
    markup_value := pyRound2 markup_value
    price_before_vat := pyRound2 price_before_vat
    vat_pct := c.vat_pct
    vat_value := pyRound2 vat_value
    total := pyRound2 total }

/-- The calculator the concrete spec scenario constructs:
`labor_rate=15.0`, `markup_pct=0.30`, `vat_pct=0.20`. -/
def defaultCalculator : PricingCalculator := ⟨15, 3/10, 1/5⟩

/-- The concrete spec scenario's material lines, with line costs computed
at full precision (`qty × unit_cost`) exactly as the orchestrator passes
them in: 1.728, 1.008, 4.32, 2.16. -/
def scenarioMaterials : List MaterialLine :=
  [ ⟨"flour", 192/100, "kg", 9/10, 1728/1000⟩
  , ⟨"sugar", 144/100, "kg", 7/10, 1008/1000⟩
  , ⟨"butter", 96/100, "kg", 45/10, 432/100⟩
  , ⟨"eggs", 12, "each", 18/100, 216/100⟩ ]

/-! ## converter.py

The converter is the one component whose claimed property (exact
round-trip inversion) is sensitive to double-precision rounding, so it is
modelled with explicit IEEE-754 binary64 semantics: `fl` rounds an exact
rational to the nearest double (round-half-to-even on a 53-bit
significand; exponents are unbounded, which is faithful for every
magnitude appearing here), the factor table stores the exact value of the
double literal `0.001`, and each multiplication rounds its result, as
hardware arithmetic does. -/

/-- Round a rational to the nearest IEEE binary64 value (53-bit
significand, round-half-to-even, unbounded exponent range). -/
def fl (q : ℚ) : ℚ :=
  if q = 0 then 0
  else
    let e : ℤ := Int.log 2 |q|
    let m : ℤ := roundHalfEven (|q| * (2:ℚ) ^ ((52:ℤ) - e))
    (if q < 0 then -1 else 1) * (m : ℚ) * (2:ℚ) ^ (e - 52)

/-- The exact value of the double literal `0.001` in the source's factor
table: `1152921504606847 * 2 ^ (-60)`, slightly above `1/1000`. -/
def dbl001 : ℚ := 1152921504606847/1152921504606846976

/-- `UnitConverter.CONVERSIONS` from `src/converter.py`: the factor table,
whose `0.001` entries hold the double nearest `1/1000` and whose `1000.0`
and `1.0` entries are exact. -/
def CONVERSIONS : List ((String × String) × ℚ) :=
  [ (("g", "kg"), dbl001)
  , (("kg", "g"), 1000)
  , (("ml", "L"), dbl001)
  , (("L", "ml"), 1000)
  , (("kg", "kg"), 1)
  , (("g", "g"), 1)
  , (("L", "L"), 1)
  , (("ml", "ml"), 1)
  , (("each", "each"), 1) ]

/-- `UnitConverter.UNIT_FAMILIES` from `src/converter.py`. -/
def UNIT_FAMILIES : List (String × List String) :=
  [ ("mass", ["kg", "g"])
  , ("volume", ["L", "ml"])
  , ("count", ["each"]) ]

/-- The five unit tokens the converter supports. -/
def SUPPORTED_UNITS : List String := ["kg", "g", "L", "ml", "each"]

/-- Two unit tokens lie in one family of `UNIT_FAMILIES`. -/
def sameFamily (u1 u2 : String) : Bool :=
  UNIT_FAMILIES.any (fun fam => fam.2.contains u1 && fam.2.contains u2)

/-- `UnitConverter.can_convert`: equal units always convert; otherwise both
units must sit in one family.  Unit tokens are modelled post-`strip()`. -/
def can_convert (from_unit to_unit : String) : Bool :=
  if from_unit == to_unit then true
  else UNIT_FAMILIES.any (fun fam =>
    fam.2.contains from_unit && fam.2.contains to_unit)

/-- `UnitConverter.convert` from `src/converter.py`: reject incompatible
units (`UnitConversionError`), then multiply by the table factor in
double arithmetic — the product is rounded to the nearest double, as
`value * factor` is in CPython. -/
def convert (value : ℚ) (from_unit to_unit : String) : Except String ℚ :=
  if ¬ can_convert from_unit to_unit then
    .error "Cannot convert: units are not compatible"
  else
    match CONVERSIONS.lookup (from_unit, to_unit) with
    | none => .error "No conversion defined"
    | some factor => .ok (fl (value * factor))

/-- The double printed `404.9341374504143`, exactly
`7123676681762809 * 2 ^ (-44)`. -/
def v404 : ℚ := 7123676681762809/17592186044416

/-- The double `v404` converts to in grams-to-kilograms:
`7294644922125117 * 2 ^ (-54)`. -/
def w404 : ℚ := 7294644922125117/18014398509481984

/-- The double the round trip returns for `v404`, printed
`404.93413745041437`: `7123676681762810 * 2 ^ (-44)`, one unit in the
last place above `v404`. -/
def v404back : ℚ := 3561838340881405/8796093022208

/-- The double `3.0` converts to in grams-to-kilograms:
`3458764513820541 * 2 ^ (-60)`. -/
def w3g : ℚ := 3458764513820541/1152921504606846976

/-! ## models.py and the exceptions that matter to the claims -/

/-- The Python exception classes the modelled paths can raise.
`bomAPIConnectionError` is `bom_tool.APIConnectionError` and
`modelsAPIConnectionError` is the distinct `models.APIConnectionError`
class the orchestrator imports; they never match each other. -/
inductive PyExc
  | valueError
  | bomAPIConnectionError
  | invalidJobTypeError
  | modelsAPIConnectionError
deriving DecidableEq

/-- One material entry of a BOM estimate (`bom_tool.Material`, also the
shape of the dicts stored in `QuoteState.bom_data`). -/
structure BOMMaterial where
  name : String
  qty : ℚ
  unit : String
deriving DecidableEq

/-- A BOM estimate (`bom_tool.EstimateResponse` / the dict
`QuoteState.bom_data` stores). -/
structure BOMEstimate where
  job_type : String
  quantity : ℤ
  materials : List BOMMaterial
  labor_hours : ℚ
deriving DecidableEq

/-- One row of cost data as `DatabaseTool.get_materials_bulk` returns it
(the `name` key is kept separately as the mapping key). -/
structure MaterialCostData where
  unit : String
  unit_cost : ℚ
  currency : String
  last_updated : String
deriving DecidableEq

/-- `QuoteState` dataclass from `src/models.py`, with its field defaults.
`calculations` is stored as the calculation record. -/
structure QuoteState where
  job_type : Option String := none
  quantity : Option ℤ := none
  customer_name : Option String := none
  due_date : Option String := none
  company_name : String := "The Artisan Bakery"
  currency : String := "GBP"
  vat_pct : ℚ := 20
  markup_pct : ℚ := 30
  labor_rate : ℚ := 15
  notes : String := ""
  bom_data : Option BOMEstimate := none
  material_costs : Option (List (String × MaterialCostData)) := none
  calculations : Option QuoteCalculation := none
  quote_id : Option String := none
deriving DecidableEq

/-- A fresh session state: every field at its dataclass default. -/
def initState : QuoteState := {}

/-- `QuoteState.reset` from `src/models.py`: clears the four required
fields, the notes, and all derived data; the pricing defaults
(company, currency, rates) are left as they are. -/
def QuoteState.reset (s : QuoteState) : QuoteState :=
  { s with
    job_type := none
    quantity := none
    customer_name := none
    due_date := none
    notes := ""
    bom_data := none
    material_costs := none
    calculations := none
    quote_id := none }

/-- The spec's state-machine phases (section 4.5). -/
inductive Phase
  | GATHERING
  | BOM_RESOLVED
  | COSTS_RESOLVED
  | PRICED
deriving DecidableEq

/-- Modelled from the spec: the code has no explicit state machine, so the
spec's phase is read off which pipeline outputs a `QuoteState` holds. -/
def phaseOf (s : QuoteState) : Phase :=
  if s.calculations ≠ none then .PRICED
  else if s.material_costs ≠ none then .COSTS_RESOLVED
  else if s.bom_data ≠ none then .BOM_RESOLVED
  else .GATHERING

/-! ## Job-type normalization and bom_tool.py -/

/-- ASCII lower-casing of one character, as Python's `str.lower` and
SQLite's `COLLATE NOCASE` treat the names appearing here. -/
def lowerChar (c : Char) : Char :=
  if 'A' ≤ c ∧ c ≤ 'Z' then Char.ofNat (c.toNat + 32) else c

/-- Python's `s.lower()` on the ASCII strings in play. -/
def pyLower (s : String) : String := String.mk (s.data.map lowerChar)

/-- The normalization both call sites apply before lookup:
`job_type.lower().replace(' ', '_')` — lower-case, then map every space to
an underscore.  Nothing is trimmed. -/
def normalize_job_type (s : String) : String :=
  String.mk ((pyLower s).data.map (fun c => if c = ' ' then '_' else c))

/-- How the BOM collaborator behaves on one `estimate` call: connection
failure, a 400 invalid-job-type answer, or a parsed success response. -/
inductive BomOutcome
  | connFail
  | badJobType
  | success (e : BOMEstimate)
deriving DecidableEq

/-- `BOMAPITool.estimate` given the collaborator's behaviour for this
call: `ValueError` for a non-positive quantity, `InvalidJobTypeError` on a
400 answer, `APIConnectionError` (the bom_tool class) on network failure,
otherwise the parsed response. -/
def bomToolEstimate (outcome : BomOutcome) (job_type : String)
    (quantity : ℤ) : Except PyExc BOMEstimate :=
  if quantity ≤ 0 then .error .valueError
  else
    match outcome with
    | .connFail => .error .bomAPIConnectionError
    | .badJobType => .error .invalidJobTypeError
    | .success e => .ok e

/-- One run of `BOMAPITool.estimate_with_retry`'s `for` loop, given the
collaborator's behaviour per attempt index.  Only the bom_tool
`APIConnectionError` is caught and retried; any other exception propagates
at once.  The returned list records the `2 ** attempt` backoff waits that
were slept.  `remaining` counts the attempts still allowed including the
current one; the `Option` error distinguishes the degenerate
`raise None` of a zero-attempt loop. -/
def retryLoop (behavior : ℕ → BomOutcome) (job_type : String) (quantity : ℤ) :
    (remaining attempt : ℕ) → Except (Option PyExc) BOMEstimate × List ℕ
  | 0, _ => (.error none, [])
  | remaining + 1, attempt =>
    match bomToolEstimate (behavior attempt) job_type quantity with
    | .ok e => (.ok e, [])
    | .error pe =>
      if pe = .bomAPIConnectionError then
        if remaining = 0 then (.error (some pe), [])
        else
          let next := retryLoop behavior job_type quantity remaining (attempt + 1)
          (next.1, 2 ^ attempt :: next.2)
      else (.error (some pe), [])

/-- `BOMAPITool.estimate_with_retry` from `src/tools/bom_tool.py`
(`max_retries` defaults to 3), paired with the backoff waits it slept. -/
def estimate_with_retry (behavior : ℕ → BomOutcome) (max_retries : ℕ)
    (job_type : String) (quantity : ℤ) :
    Except (Option PyExc) BOMEstimate × List ℕ :=
  retryLoop behavior job_type quantity max_retries 0

/-! ## orchestrator.py: get_bom_estimate_impl -/

/-- One fallback recipe of `FALLBACK_RECIPES` in `get_bom_estimate_impl`. -/
structure Recipe where
  materials : List BOMMaterial
  labor_hours : ℚ
deriving DecidableEq

/-- The per-unit cupcakes fallback recipe. -/
def cupcakesRecipe : Recipe :=
  ⟨[⟨"flour", 1/2, "kg"⟩, ⟨"sugar", 3/10, "kg"⟩, ⟨"eggs", 6, "each"⟩,
    ⟨"butter", 1/5, "kg"⟩, ⟨"milk", 1/5, "L"⟩], 3/2⟩

/-- The per-unit cake fallback recipe. -/
def cakeRecipe : Recipe :=
  ⟨[⟨"flour", 1, "kg"⟩, ⟨"sugar", 4/5, "kg"⟩, ⟨"eggs", 8, "each"⟩,
    ⟨"butter", 1/2, "kg"⟩, ⟨"milk", 2/5, "L"⟩], 3⟩

/-- The per-unit pastry-box fallback recipe. -/
def pastryBoxRecipe : Recipe :=
  ⟨[⟨"flour", 4/5, "kg"⟩, ⟨"sugar", 2/5, "kg"⟩, ⟨"butter", 2/5, "kg"⟩,
    ⟨"eggs", 4, "each"⟩], 2⟩

/-- The static `FALLBACK_RECIPES` table from
`src/agent/orchestrator.py`, keyed by normalized job type. -/
def FALLBACK_RECIPES : List (String × Recipe) :=
  [ ("cupcakes", cupcakesRecipe)
  , ("cake", cakeRecipe)
  , ("pastry_box", pastryBoxRecipe) ]

/-- What the `get_bom_estimate` tool hands back to the conversation: a
success reply, a fallback-recipe reply, an error message naming the
available job types, or a propagated exception.  The tool catches every
exception, so `raised` is never produced — it exists so that not-raising
is expressible. -/
inductive BomReply
  | ok (e : BOMEstimate)
  | fallbackUsed (e : BOMEstimate)
  | unknownJob (available : List String)
  | raised (pe : PyExc)
deriving DecidableEq

/-- `get_bom_estimate_impl` from `src/agent/orchestrator.py`.  On success
it stores the estimate and the raw job type.  On any exception — the
`except APIConnectionError` arm (the `models` class, which the bom_tool
exceptions never match) and the `except Exception` arm behave alike,
differing only in message wording — it normalizes the job type and falls
back to the recipe table, scaling per-unit quantities and labor hours by
`quantity`; an unknown normalized type yields an error message naming the
known job types, with the state untouched. -/
def get_bom_estimate_impl (outcome : BomOutcome) (job_type : String)
    (quantity : ℤ) (s : QuoteState) : BomReply × QuoteState :=
  match bomToolEstimate outcome job_type quantity with
  | .ok e =>
    (.ok e,
     { s with bom_data := some e, job_type := some job_type,
              quantity := some quantity })
  | .error _ =>
    let normalized := normalize_job_type job_type
    match FALLBACK_RECIPES.lookup normalized with
    | none => (.unknownJob ["cupcakes", "cake", "pastry_box"], s)
    | some recipe =>
      let est : BOMEstimate :=
        ⟨normalized, quantity,
         recipe.materials.map (fun m => { m with qty := m.qty * quantity }),
         recipe.labor_hours * quantity⟩
      (.fallbackUsed est,
       { s with bom_data := some est, job_type := some normalized,
                quantity := some quantity })

/-! ## database_tool.py and orchestrator.py: query_material_costs_impl -/

/-- `DatabaseTool.get_materials_bulk` from `src/tools/database_tool.py`:
`SELECT * FROM materials WHERE name IN (...) COLLATE NOCASE`, the result
keyed by the name as stored in the database.  The postfix `COLLATE
NOCASE` has no effect on the `IN` comparison, which uses the `name`
column's default BINARY collation — so matching is literal, by exact
string equality.  Returns `{}` for an empty request and never raises for
absent names.  (Only the single-row lookup `name = ? COLLATE NOCASE`
elsewhere in the file is case-insensitive.) -/
def get_materials_bulk (db : List (String × MaterialCostData))
    (material_names : List String) : List (String × MaterialCostData) :=
  if material_names.isEmpty then []
  else db.filter (fun row => material_names.contains row.1)

/-- What the `query_material_costs` tool hands back: a success message, a
missing-materials message listing the missing names, or an error message
from a caught exception (never produced on the modelled pure paths). -/
inductive CostsReply
  | okMsg
  | missingMsg (missing : List String)
  | errorMsg (pe : PyExc)
deriving DecidableEq

/-- True exactly on the caught-exception reply. -/
def CostsReply.isErrorMsg : CostsReply → Bool
  | .errorMsg _ => true
  | _ => false

/-- `query_material_costs_impl` from `src/agent/orchestrator.py`: with no
precondition check of any kind, it looks the names up in bulk, stores the
result in `material_costs`, and computes `missing` as the requested-name
set minus the returned keys (literal comparison; the Python set difference
is materialized here in request order — the modelled requests carry no
duplicate names, and no claim depends on set iteration order). -/
def query_material_costs_impl (db : List (String × MaterialCostData))
    (material_names : List String) (s : QuoteState) :
    CostsReply × QuoteState :=
  let costs := get_materials_bulk db material_names
  let s1 := { s with material_costs := some costs }
  let found := costs.map Prod.fst
  let missing := material_names.filter (fun n => !found.contains n)
  if missing.isEmpty then (.okMsg, s1) else (.missingMsg missing, s1)

/-- A one-material cost source holding only `flour`, for the concrete
missing-material scenario. -/
def flourData : MaterialCostData := ⟨"kg", 9/10, "GBP", "2024-01-01"⟩

/-- The cost source of the concrete scenario: only `flour` present. -/
def dbFlour : List (String × MaterialCostData) := [("flour", flourData)]

/-- The cupcakes fallback recipe scaled to quantity 2. -/
def cupcakesEstimate2 : BOMEstimate :=
  ⟨"cupcakes", 2,
   [⟨"flour", 1, "kg"⟩, ⟨"sugar", 3/5, "kg"⟩, ⟨"eggs", 12, "each"⟩,
    ⟨"butter", 2/5, "kg"⟩, ⟨"milk", 2/5, "L"⟩], 3⟩

/-! ## Theorems -/

/-- Helper: with a connection-failure outcome, `get_bom_estimate_impl`
consults the job type only through `normalize_job_type`, so inputs with
equal normalizations behave identically. -/
theorem bom_impl_connFail_congr (jt1 jt2 : String) (q : ℤ) (s : QuoteState)
    (h : normalize_job_type jt1 = normalize_job_type jt2) :
    get_bom_estimate_impl .connFail jt1 q s =
      get_bom_estimate_impl .connFail jt2 q s := by
  by_cases hq : q ≤ 0 <;> simp [get_bom_estimate_impl, bomToolEstimate, hq, h]

/-- C1, counterexample.  The claim says each cascade step's output is
rounded to 2 decimals before feeding the next step, which on the concrete
scenario would give `markup_value = 8.17`, `price_before_vat = 35.39`,
`total = 42.47`.  The code keeps full precision between steps, so at that
exact input the stored fields are `8.16`, `35.38` and `42.46` — the
claimed values are all wrong. -/
theorem calculate_quote_scenario_not_per_step_rounded :
    (calculate_quote defaultCalculator scenarioMaterials (6/5)).markup_value ≠ 817/100 ∧
    (calculate_quote defaultCalculator scenarioMaterials (6/5)).price_before_vat ≠ 3539/100 ∧
    (calculate_quote defaultCalculator scenarioMaterials (6/5)).total ≠ 4247/100 := by
  norm_num [calculate_quote, pyRound2, roundHalfEven, ratFloor,
    scenarioMaterials, defaultCalculator]

/-- C1, amended.  `calculate_quote` computes the cascade in the fixed
order materials_subtotal, labor_cost, subtotal, markup_value and
price_before_vat, vat_value and total, at full precision throughout,
rounding each stored field to 2 decimals only when the result record is
built; on the concrete scenario (line costs 1.728, 1.008, 4.32, 2.16;
labor_hours 1.2, labor_rate 15.0, markup 0.30, VAT 0.20) the result has
materials_subtotal 9.22, labor_cost 18.00, subtotal 27.22,
markup_value 8.16, price_before_vat 35.38, vat_value 7.08, total 42.46. -/
theorem calculate_quote_full_precision_scenario :
    (calculate_quote defaultCalculator scenarioMaterials (6/5)).materials_subtotal = 922/100 ∧
    (calculate_quote defaultCalculator scenarioMaterials (6/5)).labor_cost = 18 ∧
    (calculate_quote defaultCalculator scenarioMaterials (6/5)).subtotal = 2722/100 ∧
    (calculate_quote defaultCalculator scenarioMaterials (6/5)).markup_value = 816/100 ∧
    (calculate_quote defaultCalculator scenarioMaterials (6/5)).price_before_vat = 3538/100 ∧
    (calculate_quote defaultCalculator scenarioMaterials (6/5)).vat_value = 708/100 ∧
    (calculate_quote defaultCalculator scenarioMaterials (6/5)).total = 4246/100 := by
  norm_num [calculate_quote, pyRound2, roundHalfEven, ratFloor,
    scenarioMaterials, defaultCalculator]

/-- C2, counterexample.  The stored-field invariant
`total = round(price_before_vat + vat_value, 2)` fails bit-for-bit: with a
single line cost of 10.004 (non-negative), zero labor hours, markup 0 and
VAT 1 — rates the constructor accepts — the stored fields are
`price_before_vat = 10.0`, `vat_value = 10.0`, whose rounded sum is 20.0,
but the stored `total` is `round(20.008, 2) = 20.01`. -/
theorem total_not_round_of_stored_fields :
    (0:ℚ) ≤ 10004/1000 ∧
    makePricingCalculator 15 0 1 = .ok ⟨15, 0, 1⟩ ∧
    (calculate_quote ⟨15, 0, 1⟩ [⟨"m", 1, "kg", 10004/1000, 10004/1000⟩] 0).price_before_vat = 10 ∧
    (calculate_quote ⟨15, 0, 1⟩ [⟨"m", 1, "kg", 10004/1000, 10004/1000⟩] 0).vat_value = 10 ∧
    (calculate_quote ⟨15, 0, 1⟩ [⟨"m", 1, "kg", 10004/1000, 10004/1000⟩] 0).total ≠
      pyRound2 ((calculate_quote ⟨15, 0, 1⟩ [⟨"m", 1, "kg", 10004/1000, 10004/1000⟩] 0).price_before_vat +
        (calculate_quote ⟨15, 0, 1⟩ [⟨"m", 1, "kg", 10004/1000, 10004/1000⟩] 0).vat_value) := by
  refine ⟨by norm_num, ?_, ?_, ?_, ?_⟩
  · norm_num [makePricingCalculator]
  · norm_num [calculate_quote, pyRound2, roundHalfEven, ratFloor]
  · norm_num [calculate_quote, pyRound2, roundHalfEven, ratFloor]
  · norm_num [calculate_quote, pyRound2, roundHalfEven, ratFloor]

/-- C2, amended.  The rounding invariant holds with the unrounded
intermediates: for every calculator and input, the stored
`price_before_vat`, `vat_value` and `total` are the 2-decimal roundings of
the full-precision price-before-VAT, of the full-precision VAT, and of
their full-precision sum — `total` is not recomputed from the
already-rounded stored fields, and can differ from their rounded sum. -/
theorem total_round_of_raw_cascade (c : PricingCalculator)
    (ms : List MaterialLine) (lh : ℚ) :
    (calculate_quote c ms lh).price_before_vat =
      pyRound2 (((ms.map (fun l => l.line_cost)).sum + lh * c.labor_rate) +
        ((ms.map (fun l => l.line_cost)).sum + lh * c.labor_rate) * c.markup_pct) ∧
    (calculate_quote c ms lh).vat_value =
      pyRound2 ((((ms.map (fun l => l.line_cost)).sum + lh * c.labor_rate) +
        ((ms.map (fun l => l.line_cost)).sum + lh * c.labor_rate) * c.markup_pct) * c.vat_pct) ∧
    (calculate_quote c ms lh).total =
      pyRound2 ((((ms.map (fun l => l.line_cost)).sum + lh * c.labor_rate) +
        ((ms.map (fun l => l.line_cost)).sum + lh * c.labor_rate) * c.markup_pct) +
       (((ms.map (fun l => l.line_cost)).sum + lh * c.labor_rate) +
        ((ms.map (fun l => l.line_cost)).sum + lh * c.labor_rate) * c.markup_pct) * c.vat_pct) :=
  ⟨rfl, rfl, rfl⟩

/-- C7.  `reset`, from any state, clears every gathered and derived field
(job_type, quantity, customer_name, due_date, notes, BOM estimate,
material costs, calculations, quote id) and returns the state machine to
GATHERING; as a total function of the record it never raises. -/
theorem reset_clears_all_derived_state (s : QuoteState) :
    s.reset.job_type = none ∧
    s.reset.quantity = none ∧
    s.reset.customer_name = none ∧
    s.reset.due_date = none ∧
    s.reset.notes = "" ∧
    s.reset.bom_data = none ∧
    s.reset.material_costs = none ∧
    s.reset.calculations = none ∧
    s.reset.quote_id = none ∧
    phaseOf s.reset = .GATHERING := by
  refine ⟨rfl, rfl, rfl, rfl, rfl, rfl, rfl, rfl, rfl, ?_⟩
  simp [phaseOf, QuoteState.reset]

/-- C7 has a universally quantified state but no hypothesis; this names a
concrete instance anyway for the record: resetting a PRICED-like state
returns to GATHERING. -/
theorem reset_clears_all_derived_state_witness :
    phaseOf (QuoteState.reset
      { initState with
          calculations := some (calculate_quote defaultCalculator [] 0) }) =
      Phase.GATHERING :=
  (reset_clears_all_derived_state _).2.2.2.2.2.2.2.2.2

/-- C10.  The monetary outputs of `calculate_quote` depend on the material
lines only through their `line_cost` fields: two materials lists agreeing
pairwise on `line_cost` (names, quantities, units and unit costs free to
differ) give identical materials_subtotal, labor_cost, subtotal,
markup_value, price_before_vat, vat_value and total under the same
calculator and labor hours. -/
theorem calculate_quote_line_cost_only (c : PricingCalculator)
    (ms1 ms2 : List MaterialLine) (lh : ℚ)
    (h : ms1.map (fun l => l.line_cost) = ms2.map (fun l => l.line_cost)) :
    (calculate_quote c ms1 lh).materials_subtotal = (calculate_quote c ms2 lh).materials_subtotal ∧
    (calculate_quote c ms1 lh).labor_cost = (calculate_quote c ms2 lh).labor_cost ∧
    (calculate_quote c ms1 lh).subtotal = (calculate_quote c ms2 lh).subtotal ∧
    (calculate_quote c ms1 lh).markup_value = (calculate_quote c ms2 lh).markup_value ∧
    (calculate_quote c ms1 lh).price_before_vat = (calculate_quote c ms2 lh).price_before_vat ∧
    (calculate_quote c ms1 lh).vat_value = (calculate_quote c ms2 lh).vat_value ∧
    (calculate_quote c ms1 lh).total = (calculate_quote c ms2 lh).total := by
  simp [calculate_quote, h]

/-- C10, witness: two single-line lists sharing only the line cost 5 —
every other field different — price identically. -/
theorem calculate_quote_line_cost_only_witness :
    (calculate_quote defaultCalculator [⟨"flour", 1, "kg", 2, 5⟩] 1).total =
      (calculate_quote defaultCalculator [⟨"mystery", 9, "g", 7, 5⟩] 1).total :=
  (calculate_quote_line_cost_only defaultCalculator
    [⟨"flour", 1, "kg", 2, 5⟩] [⟨"mystery", 9, "g", 7, 5⟩] 1 rfl).2.2.2.2.2.2

/-- C3, counterexample.  A semantic failure (the collaborator reports an
invalid job type) does not propagate as `UnknownJobTypeError`: the
orchestrator's generic handler catches it and enters the very fallback
path the claim excludes, storing the scaled recipe estimate. -/
theorem semantic_failure_enters_fallback :
    get_bom_estimate_impl .badJobType "cupcakes" 2 initState =
      (.fallbackUsed cupcakesEstimate2,
       { initState with bom_data := some cupcakesEstimate2,
                        job_type := some "cupcakes", quantity := some 2 }) := by
  have hn : normalize_job_type "cupcakes" = "cupcakes" := by decide
  simp only [get_bom_estimate_impl, bomToolEstimate, hn, FALLBACK_RECIPES,
    List.lookup]
  norm_num [cupcakesRecipe, cupcakesEstimate2, initState]

/-- C3, amended.  `BOMAPITool.estimate_with_retry` retries connection
failures up to its 3 attempts with exponential backoff (it sleeps 1s then
2s) and re-raises after exhaustion, and it never retries
`InvalidJobTypeError`, which propagates from the first attempt with no
backoff; but retry and recipe fallback are disconnected: the
orchestrator's fallback path calls `estimate` without retry, and a
semantic invalid-job-type failure there is caught by the generic handler
and enters the fallback path (no `UnknownJobTypeError` exists in the
code). -/
theorem retry_and_fallback_are_disconnected (q : ℤ) (h : 0 < q)
    (jt : String) (s : QuoteState) :
    estimate_with_retry (fun _ => .connFail) 3 jt q =
      (.error (some .bomAPIConnectionError), [1, 2]) ∧
    estimate_with_retry (fun _ => .badJobType) 3 jt q =
      (.error (some .invalidJobTypeError), []) ∧
    (get_bom_estimate_impl .badJobType "cupcakes" q s).1 =
      .fallbackUsed
        ⟨"cupcakes", q,
         cupcakesRecipe.materials.map (fun m => { m with qty := m.qty * q }),
         cupcakesRecipe.labor_hours * q⟩ := by
  have hq : ¬ q ≤ 0 := not_le.mpr h
  refine ⟨?_, ?_, ?_⟩
  · simp [estimate_with_retry, retryLoop, bomToolEstimate, hq]
  · simp [estimate_with_retry, retryLoop, bomToolEstimate, hq]
  · have hn : normalize_job_type "cupcakes" = "cupcakes" := by decide
    simp [get_bom_estimate_impl, bomToolEstimate, hq, hn, FALLBACK_RECIPES,
      List.lookup]

/-- C3, witness: the amended retry/fallback behaviour at quantity 2. -/
theorem retry_and_fallback_are_disconnected_witness :
    estimate_with_retry (fun _ => .connFail) 3 "cupcakes" 2 =
      (.error (some .bomAPIConnectionError), [1, 2]) ∧
    estimate_with_retry (fun _ => .badJobType) 3 "cupcakes" 2 =
      (.error (some .invalidJobTypeError), []) ∧
    (get_bom_estimate_impl .badJobType "cupcakes" 2 initState).1 =
      .fallbackUsed
        ⟨"cupcakes", 2,
         cupcakesRecipe.materials.map (fun m => { m with qty := m.qty * 2 }),
         cupcakesRecipe.labor_hours * 2⟩ :=
  retry_and_fallback_are_disconnected 2 (by norm_num) "cupcakes" initState

/-- C4, counterexample.  A cost lookup in a fresh GATHERING state (no BOM
estimate present) does not fail with a `PreconditionError` — nothing of
that kind exists — and does not leave the state unchanged: it performs
the lookup, replies normally, and sets `material_costs`. -/
theorem cost_lookup_without_bom_proceeds :
    query_material_costs_impl dbFlour ["flour"] initState =
      (.okMsg, { initState with material_costs := some [("flour", flourData)] }) ∧
    ({ initState with material_costs := some [("flour", flourData)] } : QuoteState)
      ≠ initState := by
  constructor
  · simp [query_material_costs_impl, get_materials_bulk, dbFlour]
  · simp [initState]

/-- C4, amended.  The cost-lookup tool has no precondition guard: for
every cost source, request and state — in particular one whose
`bom_data` is still unset — it stores the bulk-lookup result in
`material_costs` (mutating the state), leaves `bom_data` unset, and
returns a normal reply, never a caught-exception message. -/
theorem query_material_costs_no_precondition
    (db : List (String × MaterialCostData)) (names : List String)
    (s : QuoteState) (h : s.bom_data = none) :
    (query_material_costs_impl db names s).2 =
      { s with material_costs := some (get_materials_bulk db names) } ∧
    (query_material_costs_impl db names s).2.bom_data = none ∧
    ((query_material_costs_impl db names s).1).isErrorMsg = false := by
  refine ⟨?_, ?_, ?_⟩
  · simp only [query_material_costs_impl]
    split <;> rfl
  · simp only [query_material_costs_impl]
    split <;> exact h
  · simp only [query_material_costs_impl]
    split <;> rfl

/-- C4, witness: the amended no-precondition behaviour on the concrete
flour lookup from a fresh state. -/
theorem query_material_costs_no_precondition_witness :
    (query_material_costs_impl dbFlour ["flour"] initState).2 =
      { initState with
          material_costs := some (get_materials_bulk dbFlour ["flour"]) } ∧
    (query_material_costs_impl dbFlour ["flour"] initState).2.bom_data = none ∧
    ((query_material_costs_impl dbFlour ["flour"] initState).1).isErrorMsg = false :=
  query_material_costs_no_precondition dbFlour ["flour"] initState rfl

/-- C5, counterexample.  Normalization lower-cases and maps spaces to
underscores but trims nothing, so `"Cup Cakes "` normalizes to
`"cup_cakes_"`, not to `"cupcakes"`, and BOM resolution for the two
inputs differs: the first falls to the unknown-job-type reply while the
second resolves the cupcakes recipe. -/
theorem cup_cakes_normalization_diverges :
    normalize_job_type "Cup Cakes " = "cup_cakes_" ∧
    normalize_job_type "Cup Cakes " ≠ normalize_job_type "cupcakes" ∧
    get_bom_estimate_impl .connFail "Cup Cakes " 1 initState ≠
      get_bom_estimate_impl .connFail "cupcakes" 1 initState := by
  refine ⟨by decide, by decide, ?_⟩
  have h1 : (get_bom_estimate_impl .connFail "Cup Cakes " 1 initState).1 =
      .unknownJob ["cupcakes", "cake", "pastry_box"] := by
    have hn : normalize_job_type "Cup Cakes " = "cup_cakes_" := by decide
    have hl : FALLBACK_RECIPES.lookup "cup_cakes_" = none := by decide
    simp [get_bom_estimate_impl, bomToolEstimate, hn, hl]
  have h2 : (get_bom_estimate_impl .connFail "cupcakes" 1 initState).1 =
      .fallbackUsed
        ⟨"cupcakes", 1,
         cupcakesRecipe.materials.map (fun m => { m with qty := m.qty * 1 }),
         cupcakesRecipe.labor_hours * 1⟩ := by
    have hn : normalize_job_type "cupcakes" = "cupcakes" := by decide
    simp [get_bom_estimate_impl, bomToolEstimate, hn, FALLBACK_RECIPES,
      List.lookup]
  intro heq
  have := congrArg Prod.fst heq
  rw [h1, h2] at this
  exact absurd this (by simp)

/-- C5, amended.  The normalization makes BOM resolution insensitive to
letter case only: an input differing from a lookup key solely in casing —
`"Cupcakes"` versus `"cupcakes"` — normalizes to the same key and
resolves identically for every quantity; trailing whitespace is not
removed and does change the result. -/
theorem case_only_inputs_resolve_identically (q : ℤ) (s : QuoteState) :
    normalize_job_type "Cupcakes" = normalize_job_type "cupcakes" ∧
    get_bom_estimate_impl .connFail "Cupcakes" q s =
      get_bom_estimate_impl .connFail "cupcakes" q s := by
  have hn : normalize_job_type "Cupcakes" = normalize_job_type "cupcakes" := by
    decide
  exact ⟨hn, bom_impl_connFail_congr "Cupcakes" "cupcakes" q s hn⟩

/-- C6, counterexample.  With the collaborator unreachable and an unknown
normalized job type, resolution does not fail with an
`UnknownJobTypeError` exception — no exception is raised at all (the
reply is not of the `raised` kind): the tool returns an error message
naming the known job types and leaves the state untouched. -/
theorem unknown_job_fallback_returns_message :
    get_bom_estimate_impl .connFail "bagels" 2 initState =
      (.unknownJob ["cupcakes", "cake", "pastry_box"], initState) := by
  have hn : normalize_job_type "bagels" = "bagels" := by decide
  have hl : FALLBACK_RECIPES.lookup "bagels" = none := by decide
  simp [get_bom_estimate_impl, bomToolEstimate, hn, hl]

/-- C6, amended.  When the BOM collaborator is unreachable, resolution
falls back to the static recipe table keyed by normalized job type
(cupcakes, cake, pastry_box): per-unit material quantities and labor
hours are each multiplied by the requested quantity and the scaled
estimate is stored; an unknown normalized job type yields an error reply
naming the known job types, with the state unchanged, rather than an
`UnknownJobTypeError` exception. -/
theorem bom_fallback_scales_by_quantity (q : ℤ) (s : QuoteState)
    (key : String) (r : Recipe) (hmem : (key, r) ∈ FALLBACK_RECIPES) :
    (get_bom_estimate_impl .connFail key q s =
      (.fallbackUsed
        ⟨key, q, r.materials.map (fun m => { m with qty := m.qty * q }),
         r.labor_hours * q⟩,
       { s with
           bom_data := some
             ⟨key, q, r.materials.map (fun m => { m with qty := m.qty * q }),
              r.labor_hours * q⟩,
           job_type := some key, quantity := some q })) ∧
    get_bom_estimate_impl .connFail "bagels" q s =
      (.unknownJob ["cupcakes", "cake", "pastry_box"], s) := by
  constructor
  · simp only [FALLBACK_RECIPES, List.mem_cons, List.not_mem_nil, or_false] at hmem
    rcases hmem with h | h | h
    · rw [Prod.ext_iff] at h
      obtain ⟨h1, h2⟩ := h
      subst h1; subst h2
      have hn : normalize_job_type "cupcakes" = "cupcakes" := by decide
      by_cases hq : q ≤ 0 <;>
        simp [get_bom_estimate_impl, bomToolEstimate, hq, hn,
          FALLBACK_RECIPES, List.lookup]
    · rw [Prod.ext_iff] at h
      obtain ⟨h1, h2⟩ := h
      subst h1; subst h2
      have hn : normalize_job_type "cake" = "cake" := by decide
      by_cases hq : q ≤ 0 <;>
        simp [get_bom_estimate_impl, bomToolEstimate, hq, hn,
          FALLBACK_RECIPES, List.lookup]
    · rw [Prod.ext_iff] at h
      obtain ⟨h1, h2⟩ := h
      subst h1; subst h2
      have hn : normalize_job_type "pastry_box" = "pastry_box" := by decide
      by_cases hq : q ≤ 0 <;>
        simp [get_bom_estimate_impl, bomToolEstimate, hq, hn,
          FALLBACK_RECIPES, List.lookup]
  · have hn : normalize_job_type "bagels" = "bagels" := by decide
    have hl : FALLBACK_RECIPES.lookup "bagels" = none := by decide
    by_cases hq : q ≤ 0 <;>
      simp [get_bom_estimate_impl, bomToolEstimate, hq, hn, hl]

/-- C6, witness: the amended fallback behaviour at the cupcakes recipe
and quantity 2. -/
theorem bom_fallback_scales_by_quantity_witness :
    (get_bom_estimate_impl .connFail "cupcakes" 2 initState =
      (.fallbackUsed
        ⟨"cupcakes", 2,
         cupcakesRecipe.materials.map (fun m => { m with qty := m.qty * 2 }),
         cupcakesRecipe.labor_hours * 2⟩,
       { initState with
           bom_data := some
             ⟨"cupcakes", 2,
              cupcakesRecipe.materials.map (fun m => { m with qty := m.qty * 2 }),
              cupcakesRecipe.labor_hours * 2⟩,
           job_type := some "cupcakes", quantity := some 2 })) ∧
    get_bom_estimate_impl .connFail "bagels" 2 initState =
      (.unknownJob ["cupcakes", "cake", "pastry_box"], initState) :=
  bom_fallback_scales_by_quantity 2 initState "cupcakes" cupcakesRecipe
    (by simp [FALLBACK_RECIPES])

/-- C8, counterexample.  The claim's case-insensitive matching is false
of the program: the postfix `COLLATE NOCASE` has no effect on the `IN`
comparison, so requesting `"Flour"` against a source holding `flour` —
a name the claim says is found case-insensitively — returns no entry at
all, stores an empty mapping, and reports `"Flour"` missing. -/
theorem case_mismatch_returns_no_rows :
    get_materials_bulk dbFlour ["Flour"] = [] ∧
    (query_material_costs_impl dbFlour ["Flour"] initState).1 =
      .missingMsg ["Flour"] ∧
    (query_material_costs_impl dbFlour ["Flour"] initState).2.material_costs =
      some [] := by
  refine ⟨?_, ?_, ?_⟩ <;>
    simp [query_material_costs_impl, get_materials_bulk, dbFlour]

/-- C8, amended.  Bulk cost lookup never raises for absent materials; it
matches requested names literally (the postfix `COLLATE NOCASE` in the
`IN` query has no effect), returns exactly the source entries whose
stored name is a requested name, and the missing set reported to the
caller — the requested names minus the returned keys — is exactly the
requested names absent from the source under that literal comparison:
every returned entry is a source row whose key was requested, every
requested name present in the source is returned, and the concrete
scenario holds: requesting `flour` and `unicorn_dust` against a
flour-only source returns the flour entry, stores it, and reports
exactly `unicorn_dust` missing. -/
theorem bulk_lookup_literal_match :
    (∀ (db : List (String × MaterialCostData)) (names : List String)
       (x : String × MaterialCostData), x ∈ get_materials_bulk db names →
         x ∈ db ∧ x.1 ∈ names) ∧
    (∀ (db : List (String × MaterialCostData)) (names : List String)
       (n : String), n ∈ names → n ∈ db.map Prod.fst →
         n ∈ (get_materials_bulk db names).map Prod.fst) ∧
    get_materials_bulk dbFlour ["flour", "unicorn_dust"] =
      [("flour", flourData)] ∧
    (query_material_costs_impl dbFlour ["flour", "unicorn_dust"] initState).1 =
      .missingMsg ["unicorn_dust"] ∧
    (query_material_costs_impl dbFlour ["flour", "unicorn_dust"] initState).2.material_costs =
      some [("flour", flourData)] := by
  refine ⟨?_, ?_, ?_, ?_, ?_⟩
  · intro db names x hx
    by_cases hnil : names.isEmpty
    · simp [get_materials_bulk, hnil] at hx
    · simp only [get_materials_bulk, hnil, Bool.false_eq_true, if_false] at hx
      rw [List.mem_filter] at hx
      exact ⟨hx.1, by simpa using hx.2⟩
  · intro db names n hn hdb
    obtain ⟨x, hxdb, hx1⟩ := List.mem_map.mp hdb
    have hne : names.isEmpty = false := by
      cases names with
      | nil => cases hn
      | cons a l => rfl
    simp only [get_materials_bulk, hne, Bool.false_eq_true, if_false]
    exact List.mem_map.mpr
      ⟨x, List.mem_filter.mpr ⟨hxdb, by simp [hx1, hn]⟩, hx1⟩
  · simp [get_materials_bulk, dbFlour]
  · simp [query_material_costs_impl, get_materials_bulk, dbFlour]
  · simp [query_material_costs_impl, get_materials_bulk, dbFlour]

/-- C8, witness: both universal clauses applied to the concrete flour
lookup — the returned flour entry is a source row whose requested key
matched literally, and the requested present name `flour` is returned. -/
theorem bulk_lookup_literal_match_witness :
    (("flour", flourData) ∈ dbFlour ∧
      ("flour", flourData).1 ∈ ["flour", "unicorn_dust"]) ∧
    "flour" ∈ (get_materials_bulk dbFlour ["flour", "unicorn_dust"]).map Prod.fst := by
  have h := bulk_lookup_literal_match
  refine ⟨h.1 dbFlour ["flour", "unicorn_dust"] ("flour", flourData) ?_,
    h.2.1 dbFlour ["flour", "unicorn_dust"] "flour" (by simp) (by simp [dbFlour])⟩
  rw [h.2.2.1]
  exact List.mem_singleton.mpr rfl

/-- Helper: `Int.log 2` is characterized by the enclosing binade. -/
theorem int_log_two_eq {q : ℚ} {e : ℤ} (h0 : 0 < q)
    (hlow : (2:ℚ) ^ e ≤ q) (hhigh : q < (2:ℚ) ^ (e + 1)) :
    Int.log 2 q = e := by
  have hb : 1 < (2:ℕ) := one_lt_two
  refine le_antisymm ?_ ?_
  · by_contra hlt
    push_neg at hlt
    have h1 : (2:ℚ) ^ (e + 1) ≤ (2:ℚ) ^ (Int.log 2 q) :=
      zpow_le_zpow_right₀ (by norm_num) (by omega)
    have h2 : ((2:ℕ):ℚ) ^ (Int.log 2 q) ≤ q := Int.zpow_log_le_self hb h0
    push_cast at h2
    exact absurd (h1.trans h2) (not_le.mpr hhigh)
  · have h3 : Int.log 2 ((2:ℚ) ^ e) ≤ Int.log 2 q :=
      Int.log_mono_right (by positivity) hlow
    have h4 : Int.log 2 ((2:ℚ) ^ e) = e := by
      have h5 := Int.log_zpow (R := ℚ) hb e
      norm_num at h5
      exact h5
    rw [h4] at h3
    exact h3

/-- Helper: evaluate `fl` on a positive rational from its binade `e` and
rounded significand `m`. -/
theorem fl_eq {q : ℚ} {e m : ℤ} (h0 : 0 < q)
    (hlow : (2:ℚ) ^ e ≤ q) (hhigh : q < (2:ℚ) ^ (e + 1))
    (hm : roundHalfEven (q * (2:ℚ) ^ ((52:ℤ) - e)) = m) :
    fl q = (m : ℚ) * (2:ℚ) ^ (e - 52) := by
  have hne : q ≠ 0 := ne_of_gt h0
  have habs : |q| = q := abs_of_pos h0
  have hlog : Int.log 2 q = e := int_log_two_eq h0 hlow hhigh
  simp only [fl, if_neg hne, habs, hlog, hm, if_neg (not_lt.mpr h0.le),
    one_mul]

/-- Helper: `dbl001` is the double nearest `1/1000`, i.e. the value of
the source literal `0.001`. -/
theorem fl_dbl001 : fl (1/1000) = dbl001 := by
  rw [fl_eq (e := -10) (m := 4611686018427388) (by norm_num) (by norm_num)
    (by norm_num) (by norm_num [roundHalfEven, ratFloor])]
  norm_num [dbl001]

/-- Helper: `v404` is representable — it is itself a double. -/
theorem fl_v404_id : fl v404 = v404 := by
  rw [fl_eq (e := 8) (m := 7123676681762809) (by norm_num [v404])
    (by norm_num [v404]) (by norm_num [v404])
    (by norm_num [roundHalfEven, ratFloor, v404])]
  norm_num [v404]

/-- Helper: the double product `v404 * 0.001` rounds to `w404`. -/
theorem fl_v404_mul : fl (v404 * dbl001) = w404 := by
  rw [fl_eq (e := -2) (m := 7294644922125117) (by norm_num [v404, dbl001])
    (by norm_num [v404, dbl001]) (by norm_num [v404, dbl001])
    (by norm_num [roundHalfEven, ratFloor, v404, dbl001])]
  norm_num [w404]

/-- Helper: the double product `w404 * 1000.0` rounds to `v404back`,
one unit in the last place above `v404`. -/
theorem fl_w404_mul : fl (w404 * 1000) = v404back := by
  rw [fl_eq (e := 8) (m := 7123676681762810) (by norm_num [w404])
    (by norm_num [w404]) (by norm_num [w404])
    (by norm_num [roundHalfEven, ratFloor, w404])]
  norm_num [v404back]

/-- Helper: the double product `3 * 0.001` rounds to `w3g`. -/
theorem fl_three_mul : fl (3 * dbl001) = w3g := by
  rw [fl_eq (e := -9) (m := 6917529027641082) (by norm_num [dbl001])
    (by norm_num [dbl001]) (by norm_num [dbl001])
    (by norm_num [roundHalfEven, ratFloor, dbl001])]
  norm_num [w3g]

/-- Helper: the double product `w3g * 1000.0` rounds back to exactly 3. -/
theorem fl_w3g_mul : fl (w3g * 1000) = 3 := by
  rw [fl_eq (e := 1) (m := 6755399441055744) (by norm_num [w3g])
    (by norm_num [w3g]) (by norm_num [w3g])
    (by norm_num [roundHalfEven, ratFloor, w3g])]
  norm_num

/-- Helper: 3 is a double. -/
theorem fl_three : fl (3:ℚ) = 3 := by
  rw [fl_eq (e := 1) (m := 6755399441055744) (by norm_num) (by norm_num)
    (by norm_num) (by norm_num [roundHalfEven, ratFloor])]
  norm_num

/-- C9, counterexample.  In the program's double arithmetic the
within-family round trip is not exactly invertible: the representable
input `v404` (printed `404.9341374504143`) converts g→kg to `w404` and
back to `v404back` (printed `404.93413745041437`), one unit in the last
place above `v404` — so `convert(convert(v, u1, u2), u2, u1) == v` fails
at `v = v404`, `u1 = "g"`, `u2 = "kg"`. -/
theorem convert_g_kg_roundtrip_not_exact :
    fl v404 = v404 ∧
    convert v404 "g" "kg" = .ok w404 ∧
    convert w404 "kg" "g" = .ok v404back ∧
    v404back ≠ v404 := by
  refine ⟨fl_v404_id, ?_, ?_, by norm_num [v404back, v404]⟩
  · exact congrArg Except.ok fl_v404_mul
  · exact congrArg Except.ok fl_w404_mul

/-- C9, amended.  Same-unit conversion is exact for every representable
value (its factor is exactly 1.0), but within-family round trips
multiply by the stored double `0.001` — not exactly `1/1000` — and round
each product to double precision, so they are not exactly invertible for
every value; particular values do survive, e.g. 3 g→kg→g returns exactly
3. -/
theorem convert_same_unit_identity_and_exact_cases :
    (∀ (v : ℚ) (u : String), u ∈ SUPPORTED_UNITS → fl v = v →
       convert v u u = .ok v) ∧
    convert 3 "g" "kg" = .ok w3g ∧
    convert w3g "kg" "g" = .ok 3 := by
  refine ⟨?_, congrArg Except.ok fl_three_mul, congrArg Except.ok fl_w3g_mul⟩
  intro v u hu hv
  simp only [SUPPORTED_UNITS, List.mem_cons, List.not_mem_nil, or_false] at hu
  rcases hu with rfl | rfl | rfl | rfl | rfl <;>
    · show Except.ok (fl (v * 1)) = Except.ok v
      rw [mul_one, hv]

/-- C9, witness: gram identity conversion at the representable value 3. -/
theorem convert_same_unit_identity_and_exact_cases_witness :
    convert (3:ℚ) "g" "g" = .ok 3 :=
  (convert_same_unit_identity_and_exact_cases).1 3 "g" (by decide) fl_three

end Bakery
